import Mathlib

/-!
Verification of the SmartTrust NPO compliance engine against its
natural-language specification.

The Python sources (npo_compliance.py, npo_data.py, npo_excel.py,
npo_config.py) are shallowly embedded below.  Python floats are modelled
by exact rationals (`ℚ`); Python dicts whose keys are string literals are
modelled by association lists `List (String × PyVal)` in construction
order, so that key membership and insertion order are part of the model.
-/

namespace SmartTrust

/-! ## String helpers (substring / lowercase, used by several modules) -/

/-- Case mapping of a whole string, modelling Python `str.lower()` for the
ASCII names used by the program. -/
def strLower (s : String) : String := String.mk (s.toList.map Char.toLower)

/-- Test that `pat` is an initial segment of `cs`. -/
def charsStart : List Char → List Char → Bool
  | [], _ => true
  | _ :: _, [] => false
  | p :: ps, c :: cs => p == c && charsStart ps cs

/-- Test that `pat` occurs contiguously inside `cs`. -/
def charsSub (pat : List Char) : List Char → Bool
  | [] => pat.isEmpty
  | c :: cs => charsStart pat (c :: cs) || charsSub pat cs

/-- Substring test, modelling Python's `pat in s` on strings. -/
def strContains (s pat : String) : Bool := charsSub pat.toList s.toList

/-- Whitespace stripping on both ends, modelling Python `str.strip()`. -/
def strStrip (s : String) : String :=
  String.mk (((s.toList.dropWhile Char.isWhitespace).reverse.dropWhile
    Char.isWhitespace).reverse)

/-- Joining with a separator, modelling Python's `sep.join(l)`. -/
def joinSep (sep : String) : List String → String
  | [] => ""
  | [x] => x
  | x :: y :: xs => x ++ sep ++ joinSep sep (y :: xs)

/-! ## Python values

A Python dict with string keys is embedded as an association list kept in
construction order; `PyVal` covers the value shapes the report uses. -/

inductive PyVal where
  | num : ℚ → PyVal
  | str : String → PyVal
  | bool : Bool → PyVal
  | list : List PyVal → PyVal
  | dict : List (String × PyVal) → PyVal

/-! ## npo_compliance.py — ComplianceCalculator.calculate_section_11_compliance

Direct embedding of the `compliance_status` dict built at
npo_compliance.py lines 8–41.  The Python defaults `capital_exp=0` and
`accumulation_rate=0.15` are passed explicitly by callers below. -/

def calculate_section_11_compliance (income : ℚ) (expenses : List ℚ)
    (capital_exp accumulation_rate : ℚ) : List (String × PyVal) :=
  let revenue_expenses := expenses.sum
  let total_application := revenue_expenses + capital_exp
  let required_application := income * (85 / 100)
  let max_accumulation := income * accumulation_rate
  let actual_accumulation := income - total_application
  [("total_income", .num income),
   ("revenue_expenses", .num revenue_expenses),
   ("capital_expenditure", .num capital_exp),
   ("total_application", .num total_application),
   ("required_application", .num required_application),
   ("compliance_85_percent", .bool (decide (required_application ≤ total_application))),
   ("shortfall_excess", .num (total_application - required_application)),
   ("accumulation_allowed", .num max_accumulation),
   ("actual_accumulation", .num actual_accumulation),
   ("accumulation_within_limit", .bool (decide (actual_accumulation ≤ max_accumulation))),
   ("taxable_income", .num (max 0 (income - total_application - max_accumulation)))]

/-- C1: the compliance flag is exactly the 85% application test, with
equality counted as compliant.  -/
theorem section11_compliance_iff (income capital_exp accumulation_rate : ℚ)
    (expenses : List ℚ) (hinc : 0 ≤ income) (hexp : ∀ e ∈ expenses, 0 ≤ e) :
    (calculate_section_11_compliance income expenses capital_exp
        accumulation_rate).lookup "compliance_85_percent" = some (.bool true)
      ↔ (85 / 100) * income ≤ expenses.sum + capital_exp := by
  have h : (calculate_section_11_compliance income expenses capital_exp
      accumulation_rate).lookup "compliance_85_percent"
      = some (.bool (decide (income * (85 / 100) ≤ expenses.sum + capital_exp))) := rfl
  rw [h]
  constructor
  · intro hb
    have hb2 : decide (income * (85 / 100) ≤ expenses.sum + capital_exp) = true := by
      cases hd : decide (income * (85 / 100) ≤ expenses.sum + capital_exp) with
      | true => rfl
      | false => rw [hd] at hb; exact absurd (Option.some.inj hb) (by simp)
    have := of_decide_eq_true hb2
    linarith [this, mul_comm income ((85 : ℚ) / 100)]
  · intro hle
    have : income * (85 / 100) ≤ expenses.sum + capital_exp := by
      linarith [mul_comm income ((85 : ℚ) / 100)]
    rw [decide_eq_true this]

/-- Witness for C1 at income 100, expenses [80, 10], capital 0. -/
theorem section11_compliance_iff_witness :
    (calculate_section_11_compliance 100 [80, 10] 0 (15 / 100)).lookup
      "compliance_85_percent" = some (.bool true) :=
  (section11_compliance_iff 100 0 (15 / 100) [80, 10] (by norm_num)
    (by intro e he; simp at he; rcases he with h | h <;> rw [h] <;> norm_num)).mpr
    (by norm_num)

/-- C3 counterexample: the Section 11 result built by the code has no
`deemed_application_eligible` entry, even in the spec's own scenario
(income 100000, expenses 70000, capital additions 10000). -/
theorem section11_no_deemed_application_key :
    (calculate_section_11_compliance 100000 [70000] 10000 (15 / 100)).lookup
      "deemed_application_eligible" = none := rfl

/-- C3 (amended): the result exposes `shortfall_excess` =
`total_application - required_application` instead; the statutory-relief
amount `max 0 (required - total)` is its negative part, and in the spec's
scenario the shortfall entry is −5000 (so the relief amount is 5000). -/
theorem section11_shortfall_excess (income capital_exp accumulation_rate : ℚ)
    (expenses : List ℚ) :
    (calculate_section_11_compliance income expenses capital_exp
        accumulation_rate).lookup "shortfall_excess"
      = some (.num (expenses.sum + capital_exp - income * (85 / 100)))
    ∧ max 0 (income * (85 / 100) - (expenses.sum + capital_exp))
      = -min 0 (expenses.sum + capital_exp - income * (85 / 100))
    ∧ (calculate_section_11_compliance 100000 [70000] 10000 (15 / 100)).lookup
        "shortfall_excess" = some (.num (-5000))
    ∧ max (0 : ℚ) ((100000 : ℚ) * (85 / 100) - ((70000 : ℚ) + 10000)) = 5000 := by
  refine ⟨rfl, ?_, ?_, by norm_num⟩
  · rcases le_total (expenses.sum + capital_exp - income * (85 / 100)) 0 with h | h
    · rw [min_eq_right h, max_eq_right (by linarith)]; ring
    · rw [min_eq_left h, max_eq_left (by linarith)]; norm_num
  · have h : (calculate_section_11_compliance 100000 [70000] 10000 (15 / 100)).lookup
        "shortfall_excess"
        = some (.num ((70000 : ℚ) + 0 + 10000 - 100000 * (85 / 100))) := rfl
    rw [h]; norm_num

/-- C5 counterexample: with income 0 the compliance flag is
`total_application >= 0`, so a negative supplied application total
(expenses [-1]) makes the flag false — not "true regardless of the
application total". -/
theorem section11_zero_income_negative_total :
    (calculate_section_11_compliance 0 [-1] 0 (15 / 100)).lookup
      "compliance_85_percent" = some (.bool false) := by
  have h : (calculate_section_11_compliance 0 [-1] 0 (15 / 100)).lookup
      "compliance_85_percent"
      = some (.bool (decide ((0 : ℚ) * (85 / 100) ≤ -1 + 0 + 0))) := rfl
  rw [h, decide_eq_false (by norm_num)]

/-- C5 (amended): with income 0, `required_application` and
`accumulation_allowed` are both 0, and the compliance flag holds exactly
when the supplied application total is non-negative (hence for every
non-negative total). -/
theorem section11_zero_income (capital_exp accumulation_rate : ℚ)
    (expenses : List ℚ) :
    (calculate_section_11_compliance 0 expenses capital_exp
        accumulation_rate).lookup "required_application" = some (.num 0)
    ∧ (calculate_section_11_compliance 0 expenses capital_exp
        accumulation_rate).lookup "accumulation_allowed" = some (.num 0)
    ∧ ((calculate_section_11_compliance 0 expenses capital_exp
        accumulation_rate).lookup "compliance_85_percent" = some (.bool true)
      ↔ 0 ≤ expenses.sum + capital_exp) := by
  refine ⟨?_, ?_, ?_⟩
  · have h : (calculate_section_11_compliance 0 expenses capital_exp
        accumulation_rate).lookup "required_application"
        = some (.num ((0 : ℚ) * (85 / 100))) := rfl
    rw [h, zero_mul]
  · have h : (calculate_section_11_compliance 0 expenses capital_exp
        accumulation_rate).lookup "accumulation_allowed"
        = some (.num (0 * accumulation_rate)) := rfl
    rw [h, zero_mul]
  · have h : (calculate_section_11_compliance 0 expenses capital_exp
        accumulation_rate).lookup "compliance_85_percent"
        = some (.bool (decide ((0 : ℚ) * (85 / 100) ≤ expenses.sum + capital_exp))) := rfl
    rw [h]
    constructor
    · intro hb
      have hb2 : decide ((0 : ℚ) * (85 / 100) ≤ expenses.sum + capital_exp) = true := by
        cases hd : decide ((0 : ℚ) * (85 / 100) ≤ expenses.sum + capital_exp) with
        | true => rfl
        | false => rw [hd] at hb; exact absurd (Option.some.inj hb) (by simp)
      have := of_decide_eq_true hb2
      linarith
    · intro hle
      have : (0 : ℚ) * (85 / 100) ≤ expenses.sum + capital_exp := by linarith
      rw [decide_eq_true this]

/-! ## Processed trial-balance rows

`load_tb` (npo_data.py lines 37–55) produces dicts with the fixed keys
Unit, 'Ledger Name', Amount_CY, Amount_PY, Group_Head, Sub_Group,
L3_Group, Fund_Type; all compliance calculators consume this shape.  The
space in 'Ledger Name' is rendered as an underscore. -/

structure TRow where
  Unit : String
  Ledger_Name : String
  Amount_CY : ℚ
  Amount_PY : ℚ
  Group_Head : String
  Sub_Group : String
  L3_Group : String
  Fund_Type : String
deriving DecidableEq

/-- PPE schedule records (columns defined in npo_ui.py line 1049 and
consumed as dicts by npo_compliance.py / npo_excel.py). -/
structure PPERecord where
  Asset_Name : String
  Gross_Op : ℚ
  Additions : ℚ
  Deletions : ℚ
  Dep_Op : ℚ
  Dep_Year : ℚ
  Dep_Del : ℚ
deriving DecidableEq

/-! ## npo_compliance.py — calculate_fund_classification (lines 43–56) -/

def calculate_fund_classification (data : List TRow) : List (String × PyVal) :=
  ["General", "Designated", "Restricted", "Corpus"].map (fun fund_type =>
    let fund_data := data.filter (fun r => r.Fund_Type == fund_type)
    (fund_type, PyVal.dict
      [("count", .num (fund_data.length : ℚ)),
       ("total_cy", .num (fund_data.map (fun r => r.Amount_CY)).sum),
       ("total_py", .num (fund_data.map (fun r => r.Amount_PY)).sum)]))

/-! ## npo_compliance.py — check_gujarat_compliance (lines 58–89)

The Python list `compliance_items` is built by successive appends; the
embedding concatenates the same contributions in the same order. -/

def check_gujarat_compliance (data : List TRow) (ppe_data : Option (List PPERecord)) :
    List String :=
  let required_groups := ["Corpus Fund", "Restricted Funds", "Property, Plant & Equipment"]
  let missing_groups := required_groups.filter (fun g => !data.any (fun r => r.Group_Head == g))
  let group_items : List String :=
    if missing_groups.isEmpty then []
    else ["Missing required groups: " ++ joinSep ", " missing_groups]
  let ppe_items : List String :=
    match ppe_data with
    | some ppe =>
      if ppe.length > 0 then
        (if ppe.any (fun r => strContains r.Asset_Name "Immovable") then []
         else ["Immovable property details not found"]) ++
        (if ppe.any (fun r => strContains r.Asset_Name "Movable") then []
         else ["Movable property details not found"])
      else []
    | none => []
  let investments := data.filter (fun r => strContains r.Group_Head "Investment")
  let inv_items : List String :=
    if investments.isEmpty then ["Investment details not found"] else []
  group_items ++ ppe_items ++ inv_items

/-! ## npo_compliance.py — generate_compliance_report (lines 91–116)

`datetime.now().isoformat()` is an input of the embedding (`now`): the
Python code samples the wall clock at this point. -/

def generate_compliance_report (data : List TRow) (income_total expense_total : ℚ)
    (ppe_data : Option (List PPERecord)) (now : String) : List (String × PyVal) :=
  [("generated_at", .str now),
   ("summary", .dict
      [("total_ledgers", .num (data.length : ℚ)),
       ("total_income", .num income_total),
       ("total_expenses", .num expense_total),
       ("surplus_deficit", .num (income_total - expense_total))]),
   ("section_11", .dict (calculate_section_11_compliance income_total [expense_total]
       0 (15 / 100))),
   ("fund_classification", .dict (calculate_fund_classification data)),
   ("gujarat_compliance", .dict
      [("issues", .list ((check_gujarat_compliance data ppe_data).map PyVal.str)),
       ("forms_required", .list [.str "Form 10", .str "Form 11", .str "Form 12"])]),
   ("ica_compliance", .dict
      [("schedules_required",
        .list [.str "I", .str "II", .str "III", .str "IV", .str "V", .str "VI"]),
       ("notes_required", .bool true)])]

/-- C4 counterexample: a concrete compliance run produces exactly the six
fixed top-level sections, none of which is a foreign-contribution
segregation result — refuting the claim that such a result (counts per
contribution source, tri-state segregated flag) is part of the report. -/
theorem report_has_no_foreign_contribution_section :
    (generate_compliance_report [] 0 0 none "2025-01-01T00:00:00").map Prod.fst
      = ["generated_at", "summary", "section_11", "fund_classification",
         "gujarat_compliance", "ica_compliance"] := rfl

/-- C4 (amended): every compliance run produces a report whose top-level
sections are exactly generated_at, summary, section_11,
fund_classification, gujarat_compliance and ica_compliance; no
foreign-contribution entry exists, and rows are partitioned by fund type
only (the `TRow` shape carries no contribution-source field). -/
theorem report_sections_fixed (data : List TRow) (income_total expense_total : ℚ)
    (ppe_data : Option (List PPERecord)) (now : String) :
    (generate_compliance_report data income_total expense_total ppe_data now).map Prod.fst
      = ["generated_at", "summary", "section_11", "fund_classification",
         "gujarat_compliance", "ica_compliance"]
    ∧ (generate_compliance_report data income_total expense_total ppe_data now).lookup
        "foreign_contribution" = none
    ∧ (generate_compliance_report data income_total expense_total ppe_data now).lookup
        "fund_classification" = some (.dict (calculate_fund_classification data)) :=
  ⟨rfl, rfl, rfl⟩

/-- C9 counterexample: two invocations of the full compliance-report
computation on identical input data differ, because the report embeds the
wall-clock timestamp sampled at each invocation. -/
theorem report_two_runs_differ :
    generate_compliance_report [] 0 0 none "2025-01-01T00:00:00"
      ≠ generate_compliance_report [] 0 0 none "2025-01-01T00:00:01" := by
  intro h
  have h1 := congrArg (fun l => l.lookup "generated_at") h
  have h2 : some (PyVal.str "2025-01-01T00:00:00")
      = some (PyVal.str "2025-01-01T00:00:01") := h1
  have h3 := Option.some.inj h2
  injection h3 with h4
  exact absurd h4 (by decide)

/-- C9 (amended): apart from the `generated_at` timestamp, the report is a
pure function of its inputs — two runs with identical rows, totals and
asset data agree on every other top-level entry. -/
theorem report_deterministic_except_timestamp (data : List TRow)
    (income_total expense_total : ℚ) (ppe_data : Option (List PPERecord))
    (now1 now2 : String) :
    (generate_compliance_report data income_total expense_total ppe_data now1).filter
        (fun kv => kv.1 != "generated_at")
      = (generate_compliance_report data income_total expense_total ppe_data now2).filter
        (fun kv => kv.1 != "generated_at") := rfl

/-! ## npo_excel.py — fund rows of the ICAI Schedule I (lines 207–224)

Fund records carry name, type, opening, received and utilized — and no
stored closing balance (npo_ui.py line 1061 defines exactly these five
columns).  `Type` is a Lean keyword, hence the primed field name. -/

structure FundRecord where
  Fund_Name : String
  Type' : String
  Opening : ℚ
  Received : ℚ
  Utilized : ℚ
deriving DecidableEq

/-- One written row of Schedule I: name, opening, received, utilized and
the closing balance the code computes on the spot. -/
structure IcaRow where
  name : String
  opening : ℚ
  received : ℚ
  utilized : ℚ
  closing : ℚ
deriving DecidableEq

/-- Rows written by `ExcelGenerator._write_ica_schedules`: for each fund
type in FUND_TYPES order, each fund of that type yields a row whose
closing is `Opening + Received - Utilized` (npo_excel.py line 220). -/
def write_ica_fund_rows (funds : List FundRecord) : List IcaRow :=
  ["General", "Designated", "Restricted", "Corpus"].flatMap (fun fund_type =>
    (funds.filter (fun f => f.Type' == fund_type)).map (fun f =>
      { name := f.Fund_Name, opening := f.Opening, received := f.Received,
        utilized := f.Utilized, closing := f.Opening + f.Received - f.Utilized }))

/-- C6: every closing balance reported in Schedule I is recomputed as
opening + received − utilized of the originating fund record (which
stores no closing field), for all rational inputs — negative
`received - utilized` included. -/
theorem ica_closing_recomputed (funds : List FundRecord) (row : IcaRow)
    (h : row ∈ write_ica_fund_rows funds) :
    row.closing = row.opening + row.received - row.utilized
    ∧ ∃ f ∈ funds, row.name = f.Fund_Name ∧ row.opening = f.Opening
        ∧ row.received = f.Received ∧ row.utilized = f.Utilized := by
  simp only [write_ica_fund_rows, List.mem_flatMap, List.mem_map, List.mem_filter] at h
  obtain ⟨ft, _hft, f, ⟨hf, _⟩, hrow⟩ := h
  subst hrow
  exact ⟨rfl, f, hf, rfl, rfl, rfl, rfl⟩

/-- A corpus fund whose utilization exceeds its receipts. -/
def fundEndowment : FundRecord := ⟨"Endowment", "Corpus", 100, 5, 30⟩

/-- The Schedule I row the writer emits for `fundEndowment`. -/
def rowEndowment : IcaRow := ⟨"Endowment", 100, 5, 30, 100 + 5 - 30⟩

/-- Witness for C6 on a fund whose utilization exceeds receipts
(received − utilized = −25 < 0). -/
theorem ica_closing_recomputed_witness :
    rowEndowment.closing
      = rowEndowment.opening + rowEndowment.received - rowEndowment.utilized :=
  (ica_closing_recomputed [fundEndowment] rowEndowment
    (by simp [write_ica_fund_rows, fundEndowment, rowEndowment])).1

/-! ## npo_data.py — DataManager.prepare_unit_data (lines 150–156) -/

def prepare_unit_data (data : List TRow) (unit_name : String) : List TRow :=
  if unit_name == "Consolidated" then data
  else data.filter (fun row => row.Unit == unit_name)

/-- Sum of a pointwise sum of two maps splits. -/
theorem sum_map_add_split (g h : String → ℚ) :
    ∀ units : List String,
      (units.map (fun u => g u + h u)).sum = (units.map g).sum + (units.map h).sum := by
  intro units
  induction units with
  | nil => simp
  | cons u us ih => simp [ih]; ring

/-- Summing the indicator of a string absent from the list gives 0. -/
theorem sum_map_ite_not_mem (x : ℚ) (s : String) :
    ∀ units : List String, s ∉ units →
      (units.map (fun u => if s = u then x else 0)).sum = 0 := by
  intro units
  induction units with
  | nil => simp
  | cons u us ih =>
    intro hs
    have h1 : ¬s = u := fun h => hs (by rw [h]; exact List.mem_cons_self u us)
    have h2 : s ∉ us := fun h => hs (List.mem_cons_of_mem u h)
    simp [h1, ih h2]

/-- Summing the indicator of a string occurring once picks out its value. -/
theorem sum_map_ite_mem (x : ℚ) (s : String) :
    ∀ units : List String, units.Nodup → s ∈ units →
      (units.map (fun u => if s = u then x else 0)).sum = x := by
  intro units
  induction units with
  | nil => intro _ hs; cases hs
  | cons u us ih =>
    intro hnd hs
    rcases List.mem_cons.mp hs with h | h
    · subst h
      have : s ∉ us := (List.nodup_cons.mp hnd).1
      simp [sum_map_ite_not_mem x s us this]
    · have h1 : ¬s = u := by
        intro he; subst he
        exact (List.nodup_cons.mp hnd).1 h
      simp only [List.map_cons, List.sum_cons, if_neg h1, zero_add]
      exact ih (List.nodup_cons.mp hnd).2 h

/-- Partition lemma: when every row's unit occurs exactly once in `units`,
the per-unit filtered sums of any metric add up to the total. -/
theorem sum_filter_units (f : TRow → ℚ) :
    ∀ (data : List TRow) (units : List String), units.Nodup →
      (∀ r ∈ data, r.Unit ∈ units) →
      (units.map (fun u => ((data.filter (fun r => r.Unit == u)).map f).sum)).sum
        = (data.map f).sum := by
  intro data
  induction data with
  | nil => intro units _ _; simp
  | cons r rest ih =>
    intro units hnd hmem
    have hterm : ∀ u : String,
        (((r :: rest).filter (fun r' => r'.Unit == u)).map f).sum
          = (if r.Unit = u then f r else 0)
            + ((rest.filter (fun r' => r'.Unit == u)).map f).sum := by
      intro u
      by_cases h : r.Unit = u
      · simp [List.filter_cons, h]
      · simp [List.filter_cons, h]
    calc (units.map (fun u => (((r :: rest).filter (fun r' => r'.Unit == u)).map f).sum)).sum
        = (units.map (fun u => (if r.Unit = u then f r else 0)
            + ((rest.filter (fun r' => r'.Unit == u)).map f).sum)).sum := by
          exact congrArg List.sum (List.map_congr_left (fun u _ => hterm u))
      _ = (units.map (fun u => if r.Unit = u then f r else 0)).sum
            + (units.map (fun u => ((rest.filter (fun r' => r'.Unit == u)).map f).sum)).sum :=
          sum_map_add_split _ _ units
      _ = f r + (rest.map f).sum := by
          rw [sum_map_ite_mem (f r) r.Unit units hnd (hmem r (List.mem_cons_self r rest)),
            ih units hnd (fun r' hr' => hmem r' (List.mem_cons_of_mem r hr'))]
      _ = ((r :: rest).map f).sum := by simp

/-- C7: the unit aggregator returns all rows for the consolidated
sentinel, exactly the exact-string-match rows otherwise, and therefore
any additive metric summed over a partition of real units equals the
metric on the consolidated data. -/
theorem prepare_unit_data_spec (data : List TRow) (u : String)
    (units : List String) (f : TRow → ℚ) (hnd : units.Nodup)
    (hcons : "Consolidated" ∉ units) (hmem : ∀ r ∈ data, r.Unit ∈ units) :
    prepare_unit_data data "Consolidated" = data
    ∧ (u ≠ "Consolidated" → ∀ r, r ∈ prepare_unit_data data u ↔ r ∈ data ∧ r.Unit = u)
    ∧ (units.map (fun v => ((prepare_unit_data data v).map f).sum)).sum
        = ((prepare_unit_data data "Consolidated").map f).sum := by
  refine ⟨rfl, ?_, ?_⟩
  · intro hu r
    simp [prepare_unit_data, hu, List.mem_filter]
  · have hv : ∀ v ∈ units, prepare_unit_data data v
        = data.filter (fun r => r.Unit == v) := by
      intro v hvmem
      have : v ≠ "Consolidated" := fun h => hcons (h ▸ hvmem)
      simp [prepare_unit_data, this]
    rw [show prepare_unit_data data "Consolidated" = data from rfl,
      List.map_congr_left (fun v hvm => by rw [hv v hvm])]
    exact sum_filter_units f data units hnd hmem

/-- A donations row booked in unit A. -/
def rowUnitA : TRow := ⟨"A", "Donations", 50000, 0, "Donations and Grants", "", "", "General"⟩

/-- A programme-expense row booked in unit B. -/
def rowUnitB : TRow := ⟨"B", "Programme Expenses", 60000, 0, "Programme Expenses", "", "", "General"⟩

/-- Witness for C7: two rows in units A and B; the per-unit Amount_CY sums
(50000 + 60000) equal the consolidated sum. -/
theorem prepare_unit_data_spec_witness :
    ((["A", "B"] : List String).map (fun v =>
        ((prepare_unit_data [rowUnitA, rowUnitB] v).map (fun r => r.Amount_CY)).sum)).sum
      = ((prepare_unit_data [rowUnitA, rowUnitB] "Consolidated").map
          (fun r => r.Amount_CY)).sum :=
  (prepare_unit_data_spec [rowUnitA, rowUnitB] "A" ["A", "B"] (fun r => r.Amount_CY)
    (by simp) (by simp)
    (by intro r hr; simp [rowUnitA, rowUnitB] at hr; rcases hr with h | h <;>
      subst h <;> simp [rowUnitA, rowUnitB])).2.2

/-! ## Depreciation engine

npo_config.py lines 13–20 declare the rate table; no module under src/
consumes it, so the computation itself is modelled from the spec (§4.4). -/

/-- The fixed rate table of npo_config.py (`DEPRECIATION_RATES`), in
declaration order. -/
def DEPRECIATION_RATES : List (String × ℚ) :=
  [("Immovable Properties", 10 / 100),
   ("Movable Properties", 15 / 100),
   ("Vehicles", 15 / 100),
   ("Furniture", 10 / 100),
   ("Computers", 40 / 100),
   ("Intangible Assets", 25 / 100)]

/-- Modelled from the spec: rate selection of the Depreciation Engine
(§4.4), which is absent from src/ — "selects a depreciation rate by
matching the asset name (case-insensitive substring) against a small
fixed rate table keyed by asset category; falls back to a default rate
(15%) if no category matches". -/
def depreciationRate (assetName : String) : ℚ :=
  match DEPRECIATION_RATES.find?
      (fun kv => strContains (strLower assetName) (strLower kv.1)) with
  | some kv => kv.2
  | none => 15 / 100

/-- Rounding to two decimal places. -/
def round2 (q : ℚ) : ℚ := (round (q * 100) : ℤ) / 100

/-- Modelled from the spec: the depreciation computation of §4.4,
"depreciation = (opening + additions − deletions) × rate, rounded to 2
decimal places", absent from src/. -/
def computeDepreciation (r : PPERecord) : ℚ :=
  round2 ((r.Gross_Op + r.Additions - r.Deletions) * depreciationRate r.Asset_Name)

/-- An asset record matching no rate-table category. -/
def assetGenerator : PPERecord := ⟨"Generator", 1000, 500, 200, 0, 0, 0⟩

/-- C2: depreciation is (opening + additions − deletions) × rate rounded
to 2 decimals, the rate falls back to 15% when no category key occurs
case-insensitively in the asset name, and the spec's scenario
(1000, 500, 200 at the default 15%) yields 195.00. -/
theorem depreciation_formula :
    (∀ name : String,
      (∀ kv ∈ DEPRECIATION_RATES, strContains (strLower name) (strLower kv.1) = false) →
      depreciationRate name = 15 / 100)
    ∧ (∀ r : PPERecord, computeDepreciation r
        = round2 ((r.Gross_Op + r.Additions - r.Deletions) * depreciationRate r.Asset_Name))
    ∧ depreciationRate "Generator" = 15 / 100
    ∧ computeDepreciation assetGenerator = 195 := by
  refine ⟨?_, fun r => rfl, rfl, ?_⟩
  · intro name h
    unfold depreciationRate
    have hn : DEPRECIATION_RATES.find?
        (fun kv => strContains (strLower name) (strLower kv.1)) = none :=
      List.find?_eq_none.mpr (fun kv hkv => by simp [h kv hkv])
    rw [hn]
  · have h : computeDepreciation assetGenerator
        = round2 (((1000 : ℚ) + 500 - 200) * (15 / 100)) := rfl
    rw [h, round2]
    norm_num

/-- Witness for C2's default-rate clause at the concrete name
"Generator". -/
theorem depreciation_formula_witness : depreciationRate "Generator" = 15 / 100 :=
  depreciation_formula.1 "Generator" (by decide)

/-! ## npo_data.py — ingestion

A CSV cell after `pd.read_csv` is blank (`NaN`), a number, or a string.
`parsePyFloat` models the numeric parsing shared by `float(...)` and
`pd.to_numeric` for the decimal forms the program handles (sign,
digits, one decimal point; exponent forms are not exercised by any
claim and is left out). -/

inductive Cell where
  | nan : Cell
  | num : ℚ → Cell
  | str : String → Cell
deriving DecidableEq

/-- Value of an all-digit character list. -/
def digitsToNat (cs : List Char) : ℕ :=
  cs.foldl (fun acc c => acc * 10 + (c.toNat - 48)) 0

/-- All characters are decimal digits. -/
def allDigits (cs : List Char) : Bool := cs.all (fun c => c.isDigit)

/-- Unsigned decimal parsing: digits with at most one point, at least one
digit overall (Python accepts ".5" and "5."). -/
def parseUnsignedQ (cs : List Char) : Option ℚ :=
  match cs.span (fun c => c != '.') with
  | (intPart, rest) =>
    match rest with
    | [] =>
      if intPart.isEmpty || !allDigits intPart then none
      else some (digitsToNat intPart : ℚ)
    | _ :: fracPart =>
      if fracPart.any (fun c => c == '.') then none
      else if !allDigits intPart || !allDigits fracPart then none
      else if intPart.isEmpty && fracPart.isEmpty then none
      else some ((digitsToNat intPart : ℚ)
        + (digitsToNat fracPart : ℚ) / ((10 : ℚ) ^ fracPart.length))

/-- Signed decimal parsing after stripping surrounding whitespace. -/
def parsePyFloat (s : String) : Option ℚ :=
  match (strStrip s).toList with
  | [] => none
  | '-' :: rest => (parseUnsignedQ rest).map (fun q => -q)
  | '+' :: rest => parseUnsignedQ rest
  | c :: rest => parseUnsignedQ (c :: rest)

/-- Model of `pd.to_numeric` with coercion per cell: blanks stay NaN (hence
fail `.notna()`), numbers pass through, strings must parse — commas are
NOT stripped here. -/
def to_numeric_coerce (c : Cell) : Option ℚ :=
  match c with
  | .nan => none
  | .num q => some q
  | .str s => parsePyFloat s

/-- Comma removal, modelling `value.replace(',', '')`. -/
def stripCommas (s : String) : String :=
  String.mk (s.toList.filter (fun c => c != ','))

/-- Embedding of `DataManager._safe_float` (npo_data.py lines 64–74): NaN → 0.0,
strings have commas stripped and whitespace trimmed, unparsable → 0.0. -/
def safe_float (c : Cell) : ℚ :=
  match c with
  | .nan => 0
  | .num q => q
  | .str s =>
    match parsePyFloat (stripCommas s) with
    | some q => q
    | none => 0

/-- A loaded CSV: header row plus data rows aligned with the headers. -/
structure DataFrame where
  headers : List String
  rows : List (List Cell)
deriving DecidableEq

/-- Index of a column by exact name. -/
def colIdx (df : DataFrame) (c : String) : Option ℕ :=
  df.headers.findIdx? (fun h => h == c)

/-- Cell access `row[c]` for a named column; missing columns read as NaN. -/
def getCell (df : DataFrame) (row : List Cell) (c : String) : Cell :=
  match colIdx df c with
  | some i => row.getD i Cell.nan
  | none => Cell.nan

/-- Pandas `series.duplicated()` is non-empty iff some value repeats. -/
def hasDup : List Cell → Bool
  | [] => false
  | c :: cs => cs.contains c || hasDup cs

/-- Embedding of `DataManager._validate_dataframe` (npo_data.py lines 76–109).  Error
messages keep the Python category text; the formatted lists of offending
values appended by the Python f-strings are elided. -/
def validate_dataframe (df : DataFrame) (name_col cy_col : String)
    (py_col : Option String) : Bool × String :=
  if df.rows.isEmpty then (false, "File is empty")
  else
    let e1 : List String :=
      if df.headers.contains name_col then []
      else ["Column " ++ name_col ++ " not found"]
    let e2 : List String :=
      if df.headers.contains cy_col then []
      else ["Column " ++ cy_col ++ " not found"]
    let names := df.rows.map (fun r => getCell df r name_col)
    let e3 : List String := if hasDup names then ["Duplicate ledger names"] else []
    let invalid_cy :=
      df.rows.filter (fun r => (to_numeric_coerce (getCell df r cy_col)).isNone)
    let e4 : List String :=
      if invalid_cy.isEmpty then [] else ["Invalid current year amounts"]
    let e5 : List String :=
      match py_col with
      | some pc =>
        if (df.rows.filter
            (fun r => (to_numeric_coerce (getCell df r pc)).isNone)).isEmpty
        then [] else ["Invalid previous year amounts"]
      | none => []
    let errors := e1 ++ e2 ++ e3 ++ e4 ++ e5
    if errors.isEmpty then (true, "Valid")
    else (false, joinSep " | " (errors.take 3))

/-- Rendering `str(x)` for the cell values the loader uses; numeric renderings
are not read by any claim and are modelled by the empty string. -/
def cellToStr (c : Cell) : String :=
  match c with
  | .str s => s
  | .num _ => ""
  | .nan => "nan"

/-- Row processing of `load_tb` (npo_data.py lines 38–55), including the
group/sub-group/fund-type auto-mapping loop over all columns (later
matching columns overwrite earlier ones, as in the Python loop). -/
def processRow (df : DataFrame) (row : List Cell) (name_col cy_col : String)
    (py_col unit_col : Option String) : TRow :=
  let base : TRow :=
    { Unit := (match unit_col with
        | some uc => cellToStr (getCell df row uc)
        | none => "Main Unit")
      Ledger_Name := strStrip (cellToStr (getCell df row name_col))
      Amount_CY := safe_float (getCell df row cy_col)
      Amount_PY := (match py_col with
        | some pc => safe_float (getCell df row pc)
        | none => 0)
      Group_Head := "", Sub_Group := "", L3_Group := "", Fund_Type := "General" }
  df.headers.foldl (fun acc c =>
    let cl := strLower c
    let acc1 := if strContains cl "group" && !strContains cl "sub"
        && cl != "subgroup" && cl != "sub_group" then
        { acc with Group_Head := strStrip (cellToStr (getCell df row c)) }
      else acc
    let acc2 := if strContains cl "sub" && strContains cl "group" then
        { acc1 with Sub_Group := strStrip (cellToStr (getCell df row c)) }
      else acc1
    if strContains cl "fund" && strContains cl "type" then
      { acc2 with Fund_Type := strStrip (cellToStr (getCell df row c)) }
    else acc2) base

/-- Embedding of `DataManager.load_tb` (npo_data.py lines 8–62).  The surrounding
`try`/`except` is modelled by the `Except` input (a failed `read_csv`
arrives as `.error`); heuristic column resolution follows the Python
scan over the lower-cased headers. -/
def load_tb (input : Except String DataFrame) : Option (List TRow) × Option String :=
  match input with
  | .error e => (none, some ("Error loading file: " ++ e))
  | .ok df =>
    let lower := df.headers.map (fun c => (strLower (strStrip c), c))
    let name_col := (lower.find? (fun p =>
        ["ledger", "particular", "head"].any (fun x => strContains p.1 x))).map Prod.snd
    let amt_candidates := lower.filter (fun p =>
        ["amount", "debit", "balance", "rs"].any (fun x => strContains p.1 x))
    let cypy := amt_candidates.foldl (fun (acc : Option String × Option String) p =>
        if strContains p.1 "prev" || strContains p.1 "py" then (acc.1, some p.2)
        else if strContains p.1 "curr" || strContains p.1 "cy" then (some p.2, acc.2)
        else acc) (none, none)
    let cy_col := match cypy.1 with
      | some c => some c
      | none => amt_candidates.head?.map Prod.snd
    let py_col := match cypy.2 with
      | some c => some c
      | none => (amt_candidates[1]?).map Prod.snd
    let unit_col := (lower.find? (fun p =>
        strContains p.1 "unit" || strContains p.1 "branch")).map Prod.snd
    match name_col, cy_col with
    | some nc, some cc =>
      let v := validate_dataframe df nc cc py_col
      if v.1 then
        (some (df.rows.map (fun row => processRow df row nc cc py_col unit_col)), none)
      else (none, some v.2)
    | _, _ => (none, some "Could not identify Ledger/Amount columns.")

/-- A trial balance with a negative current-year amount. -/
def dfNegative : DataFrame :=
  ⟨["Ledger Name", "Amount"],
   [[.str "Rent", .num (-5)], [.str "Fees", .num 3]]⟩

/-- A trial balance with a blank current-year amount. -/
def dfBlank : DataFrame := ⟨["Ledger Name", "Amount"], [[.str "Rent", .nan]]⟩

/-- C8 counterexample: ingestion validation (`load_tb` →
`_validate_dataframe`) accepts a negative current-year amount (the
loaded row keeps −5), and rejects a blank current-year amount instead of
normalizing it to 0.0 — the coercion check `pd.to_numeric(...).notna()`
checks parseability only, and NaN fails it. -/
theorem ingestion_validation_counterexample :
    load_tb (.ok dfNegative)
      = (some [⟨"Main Unit", "Rent", -5, 0, "", "", "", "General"⟩,
               ⟨"Main Unit", "Fees", 3, 0, "", "", "", "General"⟩], none)
    ∧ load_tb (.ok dfBlank) = (none, some "Invalid current year amounts") :=
  ⟨rfl, rfl⟩

/-- The filter of rows whose cell fails numeric coercion is empty iff
every row's cell coerces. -/
theorem filter_isNone_isEmpty_iff (df : DataFrame) (rows : List (List Cell))
    (col : String) :
    (rows.filter (fun r => (to_numeric_coerce (getCell df r col)).isNone)).isEmpty = true
      ↔ ∀ r ∈ rows, (to_numeric_coerce (getCell df r col)).isSome = true := by
  rw [List.isEmpty_iff, List.filter_eq_nil_iff]
  constructor
  · intro h r hr
    have h2 := h r hr
    rcases ho : to_numeric_coerce (getCell df r col) with _ | q
    · rw [ho] at h2; simp at h2
    · rfl
  · intro h r hr
    have h2 := h r hr
    rw [Option.isSome_iff_exists] at h2
    rcases h2 with ⟨q, hq⟩
    rw [hq]
    simp

/-- C8 (amended): ingestion row validation succeeds exactly when the
dataset is non-empty, ledger names do not repeat, every current-year
amount coerces to a number — sign is not checked, so negative amounts
pass — and, when a prior-year column exists, every prior-year amount
coerces as well.  Blanks fail the coercion (they are only normalized to
0.0 by the later `_safe_float` conversion), and commas are not stripped
during validation. -/
theorem validate_dataframe_iff (df : DataFrame) (name_col cy_col : String)
    (py_col : Option String) (h1 : df.headers.contains name_col = true)
    (h2 : df.headers.contains cy_col = true) :
    ((validate_dataframe df name_col cy_col py_col).1 = true ↔
      df.rows ≠ []
      ∧ hasDup (df.rows.map (fun r => getCell df r name_col)) = false
      ∧ (∀ r ∈ df.rows, (to_numeric_coerce (getCell df r cy_col)).isSome = true)
      ∧ (match py_col with
         | some pc => ∀ r ∈ df.rows, (to_numeric_coerce (getCell df r pc)).isSome = true
         | none => True))
    ∧ to_numeric_coerce Cell.nan = none
    ∧ to_numeric_coerce (Cell.str "1,000") = none := by
  refine ⟨?_, rfl, rfl⟩
  cases hemp : df.rows.isEmpty with
  | true =>
    have hnil := List.isEmpty_iff.mp hemp
    simp [validate_dataframe, hemp, hnil]
  | false =>
    have hne : df.rows ≠ [] := by
      intro h
      rw [h] at hemp
      simp at hemp
    have hm1 : name_col ∈ df.headers := by simpa using h1
    have hm2 : cy_col ∈ df.headers := by simpa using h2
    rcases py_col with _ | pc
    · simp only [← filter_isNone_isEmpty_iff]
      cases hdup : hasDup (df.rows.map (fun r => getCell df r name_col)) with
      | true => simp [validate_dataframe, hemp, h1, h2, hdup]
      | false =>
        cases hcy : (df.rows.filter (fun r =>
            (to_numeric_coerce (getCell df r cy_col)).isNone)).isEmpty with
        | true => simp [validate_dataframe, hemp, h1, h2, hdup, hcy, hne, hm1, hm2]
        | false => simp [validate_dataframe, hemp, h1, h2, hdup, hcy]
    · simp only [← filter_isNone_isEmpty_iff]
      cases hdup : hasDup (df.rows.map (fun r => getCell df r name_col)) with
      | true => simp [validate_dataframe, hemp, h1, h2, hdup]
      | false =>
        cases hcy : (df.rows.filter (fun r =>
            (to_numeric_coerce (getCell df r cy_col)).isNone)).isEmpty with
        | true =>
          cases hpy : (df.rows.filter (fun r =>
              (to_numeric_coerce (getCell df r pc)).isNone)).isEmpty with
          | true => simp [validate_dataframe, hemp, h1, h2, hdup, hcy, hpy, hne, hm1, hm2]
          | false => simp [validate_dataframe, hemp, h1, h2, hdup, hcy, hpy]
        | false => simp [validate_dataframe, hemp, h1, h2, hdup, hcy]

/-- Witness for C8's amended characterization on `dfNegative` (negative
current-year amounts validate). -/
theorem validate_dataframe_iff_witness :
    (validate_dataframe dfNegative "Ledger Name" "Amount" none).1 = true :=
  ((validate_dataframe_iff dfNegative "Ledger Name" "Amount" none rfl rfl).1).mpr
    ⟨by simp [dfNegative], rfl, by decide, trivial⟩

/-- C10: trial-balance loading never yields rows together with an error:
for every input (including a failed file read, arriving as `.error`) the
result is either rows with no error or no rows with an error message. -/
theorem load_tb_rows_xor_error (input : Except String DataFrame) :
    (∃ rows, load_tb input = (some rows, none))
    ∨ (∃ msg, load_tb input = (none, some msg)) := by
  unfold load_tb
  cases input with
  | error e => exact Or.inr ⟨_, rfl⟩
  | ok df =>
    dsimp only
    split
    · split
      · exact Or.inl ⟨_, rfl⟩
      · exact Or.inr ⟨_, rfl⟩
    · exact Or.inr ⟨_, rfl⟩

end SmartTrust
